import Mathlib

/-
Formal model of the activity-scoring and unfollow-candidate pipeline of the
x-tracker repository (scripts/archive: cleaner_database.py,
inactive_account_cleaner.py, whitelist_manager.py).

The SQLite tables are modelled as Lean lists of rows; SQL NULL is Option.none;
ISO-8601 timestamps are modelled as abstract day numbers (Int), which is all
the code ever computes with (datetime subtraction in whole days).  Python code
that can raise (comparing None against an int) is modelled in the Except
monad.
-/

/-- Python TypeError, raised e.g. by comparing None with an int. -/
inductive PyErr where
  | typeError
deriving Repr, DecidableEq

instance {ε α : Type} [DecidableEq ε] [DecidableEq α] : DecidableEq (Except ε α) :=
  fun a b =>
    match a, b with
    | Except.ok x, Except.ok y =>
        if h : x = y then Decidable.isTrue (by subst h; rfl)
        else Decidable.isFalse (fun hc => h (Except.ok.inj hc))
    | Except.ok _, Except.error _ => Decidable.isFalse (fun hc => Except.noConfusion hc)
    | Except.error _, Except.ok _ => Decidable.isFalse (fun hc => Except.noConfusion hc)
    | Except.error e, Except.error f =>
        if h : e = f then Decidable.isTrue (by subst h; rfl)
        else Decidable.isFalse (fun hc => h (Except.error.inj hc))

/-- Checks that the character list pat occurs as a contiguous run starting at
the head of s. -/
def charsStartWith : List Char → List Char → Bool
  | [], _ => true
  | _ :: _, [] => false
  | p :: ps, c :: cs => (p == c) && charsStartWith ps cs

/-- Checks that the character list pat occurs contiguously anywhere in s. -/
def charsContain (pat : List Char) : List Char → Bool
  | [] => pat.isEmpty
  | c :: cs => charsStartWith pat (c :: cs) || charsContain pat cs

/-- Models the Python membership test pat in s on strings. -/
def pyContains (pat s : String) : Bool :=
  charsContain pat.data s.data

/-- Models Python str.isdigit: nonempty and every character a digit. -/
def pyIsDigit (s : String) : Bool :=
  !s.data.isEmpty && s.data.all (fun c => c.isDigit)

/-- Models Python str() on an optional integer (None prints as "None"). -/
def pyStrOptInt : Option Int → String
  | none => "None"
  | some n => toString n

/-- One row of the following_status table (cleaner_database.py, init_database).
Column order and names follow the CREATE TABLE statement; the column named
protected is spelled protected_ because protected is a Lean keyword. -/
structure AccountRow where
  user_id : String
  username : Option String
  display_name : Option String
  bio : Option String
  location : Option String
  url : Option String
  follower_count : Option Int
  following_count : Option Int
  tweet_count : Option Int
  listed_count : Option Int
  like_count : Option Int
  verified : Bool
  protected_ : Bool
  profile_image_url : Option String
  created_at : Option String
  last_tweet_id : Option String
  last_tweet_date : Option Int
  last_tweet_text : Option String
  days_inactive : Option Int
  posting_frequency : Option Int
  engagement_estimate : Option Int
  first_seen_date : Option Int
  last_checked_date : Option Int
  check_count : Int
  unfollow_score : Option Int
  is_whitelisted : Bool
  is_mutual_follow : Bool
  account_value_score : Option Int
  unfollowed_date : Option Int
  unfollow_reason : Option String
deriving Repr, DecidableEq

/-- A row holding the table defaults of following_status: every nullable
column NULL, check_count DEFAULT 1, is_whitelisted and is_mutual_follow
DEFAULT 0.  Used to build concrete rows in examples. -/
def baseRow : AccountRow where
  user_id := ""
  username := none
  display_name := none
  bio := none
  location := none
  url := none
  follower_count := none
  following_count := none
  tweet_count := none
  listed_count := none
  like_count := none
  verified := false
  protected_ := false
  profile_image_url := none
  created_at := none
  last_tweet_id := none
  last_tweet_date := none
  last_tweet_text := none
  days_inactive := none
  posting_frequency := none
  engagement_estimate := none
  first_seen_date := none
  last_checked_date := none
  check_count := 1
  unfollow_score := none
  is_whitelisted := false
  is_mutual_follow := false
  account_value_score := none
  unfollowed_date := none
  unfollow_reason := none

/-- Point lookup by primary key in the following_status table. -/
def storeLookup (st : List AccountRow) (uid : String) : Option AccountRow :=
  st.find? (fun r => r.user_id == uid)

/-
Score Engine: _calculate_unfollow_score (cleaner_database.py lines 264-314).
The account dict always carries every selected column (it is built with
dict(row) from a SELECT), so account.get(key, default) returns the stored
value, which is None for SQL NULL; the Python default 0 is never used.
Comparing that None with an int raises TypeError, hence the Except monad.
-/

/-- Days-inactive block of _calculate_unfollow_score (lines 272-281).
days_inactive = None reaches the comparison None > 730, which raises. -/
def daysInactiveTerm : Option Int → Except PyErr Int
  | none => Except.error PyErr.typeError
  | some x =>
    Except.ok (if x > 730 then 100 else if x > 365 then 80
               else if x > 180 then 50 else if x > 90 then 20 else 0)

/-- Follower-count block of _calculate_unfollow_score (lines 283-294), with
the elif chain in source order: the test follower_count > 100000 precedes
follower_count > 1000000, so the -50 branch is unreachable. -/
def followerCountTerm : Option Int → Except PyErr Int
  | none => Except.error PyErr.typeError
  | some x =>
    Except.ok (if x < 50 then 30 else if x < 500 then 15
               else if x < 5000 then 5 else if x > 100000 then -20
               else if x > 1000000 then -50 else 0)

/-- Verified/protected block of _calculate_unfollow_score (lines 296-301). -/
def qualityTerm (verified protected_ : Bool) : Int :=
  (if verified then -40 else 0) + (if protected_ then 10 else 0)

/-- Profile-completeness test of _calculate_unfollow_score (line 304):
not account.get(key) is true for None and for the empty string, otherwise
the substring default_profile is searched in the URL. -/
def profileIncomplete : Option String → Bool
  | none => true
  | some s => s.isEmpty || pyContains "default_profile" s

/-- Tweet-count block of _calculate_unfollow_score (lines 307-312). -/
def tweetCountTerm : Option Int → Except PyErr Int
  | none => Except.error PyErr.typeError
  | some x =>
    Except.ok (if x < 10 then 25 else if x < 100 then 10 else 0)

/-- _calculate_unfollow_score (cleaner_database.py lines 264-314): whitelisted
accounts return -1000 before anything else; otherwise the four blocks
accumulate in source order and the result is clamped with max(0, score). -/
def calculate_unfollow_score (a : AccountRow) : Except PyErr Int :=
  if a.is_whitelisted then Except.ok (-1000)
  else
    (daysInactiveTerm a.days_inactive).bind fun s1 =>
    (followerCountTerm a.follower_count).bind fun s2 =>
    (tweetCountTerm a.tweet_count).bind fun s5 =>
    Except.ok (max 0 (s1 + s2 + qualityTerm a.verified a.protected_
                        + (if profileIncomplete a.profile_image_url then 15 else 0)
                        + s5))

/-- Per-account score pass of calculate_unfollow_scores: computes the score of
every row in order, propagating the first TypeError. -/
def scoreUpdates : List AccountRow → Except PyErr (List (String × Int))
  | [] => Except.ok []
  | r :: rest =>
    (calculate_unfollow_score r).bind fun s =>
    (scoreUpdates rest).bind fun others =>
    Except.ok ((r.user_id, s) :: others)

/-- calculate_unfollow_scores (cleaner_database.py lines 234-262): scores every
row with unfollowed_date NULL and writes unfollow_score back, returning the
updated store and the updated_count.  An exception in the loop propagates
(there is no try/except around it). -/
def calculate_unfollow_scores (st : List AccountRow) :
    Except PyErr (List AccountRow × Nat) :=
  let accounts := st.filter (fun r => r.unfollowed_date == none)
  (scoreUpdates accounts).bind fun updates =>
  Except.ok
    (updates.foldl
      (fun acc u =>
        acc.map (fun r =>
          if r.user_id == u.1 then { r with unfollow_score := some u.2 } else r))
      st,
     accounts.length)

/-- Account used for claim C3: inactive 731 days, 2,000,000 followers, no
other score contribution. -/
def c3Acct : AccountRow :=
  { baseRow with
    user_id := "333"
    days_inactive := some 731
    follower_count := some 2000000
    tweet_count := some 150
    profile_image_url := some "https://pbs.twimg.com/profile_images/abc_normal.jpg" }

/-- Claim C3: the spec says an account with follower_count > 1,000,000
receives -50 (most-specific bracket first).  The source tests
follower_count > 100000 before follower_count > 1000000, so this account
(731 days inactive gives +100) scores 100 - 20 = 80, not the 100 - 50 = 50
the claim demands; the -50 branch is unreachable. -/
theorem C3_megafollower_scores_minus20 :
    calculate_unfollow_score c3Acct = Except.ok 80 := by decide

/-- Account used for claim C4: activity unknown (days_inactive NULL),
not whitelisted. -/
def c4Acct : AccountRow :=
  { baseRow with
    user_id := "444"
    follower_count := some 100
    tweet_count := some 100 }

/-- Claim C4: the spec says a null days_inactive contributes 0 and scoring
does not fail.  The source reaches the comparison None > 730 (dict.get
returns the stored None, not the default 0) and raises TypeError, which
also aborts the whole calculate_unfollow_scores pass. -/
theorem C4_null_days_inactive_raises :
    calculate_unfollow_score c4Acct = Except.error PyErr.typeError ∧
    calculate_unfollow_scores [c4Acct] = Except.error PyErr.typeError := by decide

/-- Claim C5: a whitelisted account scores the sentinel -1000 regardless of
every other field, and every score the code actually produces for a
non-whitelisted account is clamped to be nonnegative. -/
theorem C5_whitelist_sentinel_and_clamp (a : AccountRow) :
    (a.is_whitelisted = true → calculate_unfollow_score a = Except.ok (-1000)) ∧
    (a.is_whitelisted = false →
      ∀ v : Int, calculate_unfollow_score a = Except.ok v → 0 ≤ v) := by
  constructor
  · intro h
    simp [calculate_unfollow_score, h]
  · intro h v hv
    simp only [calculate_unfollow_score, h, if_false, Bool.false_eq_true] at hv
    cases hd : a.days_inactive with
    | none => simp [daysInactiveTerm, hd, Except.bind] at hv
    | some d =>
      cases hf : a.follower_count with
      | none => simp [daysInactiveTerm, followerCountTerm, hd, hf, Except.bind] at hv
      | some f =>
        cases ht : a.tweet_count with
        | none =>
          simp [daysInactiveTerm, followerCountTerm, tweetCountTerm,
                hd, hf, ht, Except.bind] at hv
        | some t =>
          simp only [daysInactiveTerm, followerCountTerm, tweetCountTerm,
                     hd, hf, ht, Except.bind, Except.ok.injEq] at hv
          subst hv
          exact le_max_left 0 _

/-- Whitelisted account with extreme other fields, for the C5 witness. -/
def c5WhitelistedAcct : AccountRow :=
  { baseRow with
    user_id := "555"
    days_inactive := some 1000
    follower_count := some 0
    tweet_count := some 0
    is_whitelisted := true }

/-- Plain account for the C5 witness: 100 days inactive (+20), 40 followers
(+30), missing profile image (+15), 5 tweets (+25), total 90. -/
def c5PlainAcct : AccountRow :=
  { baseRow with
    user_id := "556"
    days_inactive := some 100
    follower_count := some 40
    tweet_count := some 5 }

/-- Witness for C5 at two concrete accounts: the whitelisted one scores the
sentinel, and a produced score of 90 is nonnegative. -/
theorem C5_witness :
    calculate_unfollow_score c5WhitelistedAcct = Except.ok (-1000) ∧
    (0 : Int) ≤ 90 :=
  ⟨(C5_whitelist_sentinel_and_clamp c5WhitelistedAcct).1 rfl,
   (C5_whitelist_sentinel_and_clamp c5PlainAcct).2 rfl 90 (by decide)⟩

/-
Account Store: add_following_account (cleaner_database.py lines 130-183).
The statement is INSERT OR REPLACE with an explicit 17-column list; under
SQLite REPLACE semantics a conflicting row is deleted and a fresh row is
inserted, so every column absent from the list reverts to its table default
(NULL, check_count 1, is_whitelisted 0, is_mutual_follow 0).
-/

/-- The public_metrics sub-object of an API user object; each counter is read
with dict.get(key, 0). -/
structure PublicMetrics where
  followers_count : Option Int
  following_count : Option Int
  tweet_count : Option Int
  listed_count : Option Int
  like_count : Option Int
deriving Repr, DecidableEq

/-- An API user object as consumed by add_following_account.  The field named
protected in the API is spelled protected_ (Lean keyword). -/
structure AccountData where
  id : String
  username : Option String
  name : Option String
  description : Option String
  location : Option String
  url : Option String
  verified : Option Bool
  protected_ : Option Bool
  profile_image_url : Option String
  created_at : Option String
  public_metrics : Option PublicMetrics
deriving Repr, DecidableEq

/-- add_following_account (cleaner_database.py lines 130-183): builds the data
dict with defaults, then INSERT OR REPLACE over the 17 listed columns; all
other columns of a replaced row revert to their table defaults. -/
def add_following_account (st : List AccountRow) (d : AccountData) (now : Int) :
    List AccountRow :=
  let row : AccountRow :=
    { baseRow with
      user_id := d.id
      username := d.username
      display_name := d.name
      bio := d.description
      location := d.location
      url := d.url
      follower_count := d.public_metrics.map (fun m => m.followers_count.getD 0)
      following_count := d.public_metrics.map (fun m => m.following_count.getD 0)
      tweet_count := d.public_metrics.map (fun m => m.tweet_count.getD 0)
      listed_count := d.public_metrics.map (fun m => m.listed_count.getD 0)
      like_count := d.public_metrics.map (fun m => m.like_count.getD 0)
      verified := d.verified.getD false
      protected_ := d.protected_.getD false
      profile_image_url := d.profile_image_url
      created_at := d.created_at
      first_seen_date := some now
      last_checked_date := some now }
  if st.any (fun r => r.user_id == d.id)
  then st.map (fun r => if r.user_id == d.id then row else r)
  else st ++ [row]

/-- An already-unfollowed (terminal) whitelisted account, for claim C1. -/
def c1Existing : AccountRow :=
  { baseRow with
    user_id := "9001"
    username := some "gone"
    unfollowed_date := some 400
    unfollow_reason := some "Inactive for 200 days (score: 95)"
    check_count := 7
    is_whitelisted := true
    unfollow_score := some (-1000) }

/-- Fresh API attributes for the same user id, for claim C1. -/
def c1Data : AccountData :=
  { id := "9001"
    username := some "gone"
    name := some "Gone Person"
    description := none
    location := none
    url := none
    verified := some false
    protected_ := some false
    profile_image_url := some "https://pbs.twimg.com/profile_images/gone.jpg"
    created_at := some "2019-01-01T00:00:00Z"
    public_metrics := some { followers_count := some 10, following_count := some 10,
                             tweet_count := some 10, listed_count := some 0,
                             like_count := some 0 } }

/-- Claim C1: the spec says upsert never touches unfollowed_date, so a
terminal account keeps its marker.  The source INSERT OR REPLACE deletes the
existing row and re-inserts only the 17 listed columns, so the stored row for
this id comes back with unfollowed_date NULL (and also check_count reset to 1
and is_whitelisted reset to 0), erasing the terminal marker. -/
theorem C1_replace_resets_terminal :
    c1Existing.unfollowed_date = some 400 ∧
    (storeLookup (add_following_account [c1Existing] c1Data 500) "9001").map
        (fun r => (r.unfollowed_date, r.check_count, r.is_whitelisted))
      = some (none, 1, false) := by decide

/-
Candidate Ranker: get_unfollow_candidates (cleaner_database.py lines 316-329).
SELECT * FROM following_status WHERE unfollowed_date IS NULL AND
is_whitelisted = 0 AND unfollow_score >= ? ORDER BY unfollow_score DESC,
days_inactive DESC LIMIT ?.  A NULL unfollow_score fails the >= comparison
(NULL is not >= anything), and in an SQLite descending ORDER BY a NULL key
sorts after every number, which is the bottom element of WithBot Int.
-/

/-- Sort key of one ORDER BY ... DESC column: SQL NULL sorts below every
integer in descending order. -/
def sqlDescKey : Option Int → WithBot Int
  | none => ⊥
  | some x => (x : WithBot Int)

/-- Row a ranks at least as high as row b: higher unfollow_score first,
ties broken by higher days_inactive. -/
def rankLE (a b : AccountRow) : Prop :=
  sqlDescKey b.unfollow_score < sqlDescKey a.unfollow_score ∨
    (sqlDescKey b.unfollow_score = sqlDescKey a.unfollow_score ∧
      sqlDescKey b.days_inactive ≤ sqlDescKey a.days_inactive)

instance : DecidableRel rankLE := fun a b => by
  unfold rankLE; infer_instance

instance : IsTotal AccountRow rankLE := by
  constructor
  intro a b
  unfold rankLE
  rcases lt_trichotomy (sqlDescKey b.unfollow_score) (sqlDescKey a.unfollow_score)
    with h | h | h
  · exact Or.inl (Or.inl h)
  · rcases le_total (sqlDescKey b.days_inactive) (sqlDescKey a.days_inactive)
      with h2 | h2
    · exact Or.inl (Or.inr ⟨h, h2⟩)
    · exact Or.inr (Or.inr ⟨h.symm, h2⟩)
  · exact Or.inr (Or.inl h)

instance : IsTrans AccountRow rankLE := by
  constructor
  intro a b c hab hbc
  unfold rankLE at hab hbc ⊢
  rcases hab with hab | ⟨hab1, hab2⟩
  · rcases hbc with hbc | ⟨hbc1, hbc2⟩
    · exact Or.inl (lt_trans hbc hab)
    · exact Or.inl (hbc1 ▸ hab)
  · rcases hbc with hbc | ⟨hbc1, hbc2⟩
    · exact Or.inl (hab1 ▸ hbc)
    · exact Or.inr ⟨hab1 ▸ hbc1, le_trans hbc2 hab2⟩

/-- The WHERE clause of get_unfollow_candidates: unfollowed_date IS NULL,
is_whitelisted = 0, unfollow_score >= min_score (NULL score never passes). -/
def isCandidate (min_score : Int) (a : AccountRow) : Bool :=
  a.unfollowed_date.isNone && !a.is_whitelisted &&
    (match a.unfollow_score with
     | none => false
     | some s => decide (min_score ≤ s))

/-- get_unfollow_candidates (cleaner_database.py lines 316-329): filter by the
WHERE clause, sort by unfollow_score DESC with days_inactive DESC as
tie-break, truncate to limit. -/
def get_unfollow_candidates (st : List AccountRow) (limit : Nat) (min_score : Int) :
    List AccountRow :=
  ((st.filter (isCandidate min_score)).insertionSort rankLE).take limit

/-- Claim C6: get_unfollow_candidates returns exactly the rows passing the
WHERE clause (unfollowed_date null, not whitelisted, score at least
min_score), ordered by score descending with days_inactive descending as
tie-break, truncated to limit.  Every returned row is one of the qualifying
store rows; the result extends by some rest of rows to a sorted arrangement
of exactly the qualifying rows, so it is the top-limit segment of that
ranking; every returned row ranks at least as high as every qualifying row
that was left out; with no qualifying row it returns the empty list, and
with at most limit qualifying rows it returns them all. -/
theorem C6_rank_contract (st : List AccountRow) (limit : Nat) (min_score : Int) :
    (∀ a ∈ get_unfollow_candidates st limit min_score,
        a ∈ st.filter (isCandidate min_score)) ∧
    (∀ a ∈ get_unfollow_candidates st limit min_score,
        a.unfollowed_date = none ∧ a.is_whitelisted = false ∧
        ∃ s, a.unfollow_score = some s ∧ min_score ≤ s) ∧
    List.Sorted rankLE (get_unfollow_candidates st limit min_score) ∧
    (get_unfollow_candidates st limit min_score).length
      = min limit (st.filter (isCandidate min_score)).length ∧
    (∃ rest, List.Sorted rankLE (get_unfollow_candidates st limit min_score ++ rest) ∧
      (get_unfollow_candidates st limit min_score ++ rest).Perm
        (st.filter (isCandidate min_score))) ∧
    (∀ a ∈ get_unfollow_candidates st limit min_score,
      ∀ b ∈ st.filter (isCandidate min_score),
        b ∉ get_unfollow_candidates st limit min_score → rankLE a b) ∧
    (st.filter (isCandidate min_score) = [] →
      get_unfollow_candidates st limit min_score = []) ∧
    ((st.filter (isCandidate min_score)).length ≤ limit →
      (get_unfollow_candidates st limit min_score).Perm
        (st.filter (isCandidate min_score))) := by
  refine ⟨?_, ?_, ?_, ?_, ?_, ?_, ?_, ?_⟩
  · intro a ha
    exact (List.mem_insertionSort rankLE).mp (List.mem_of_mem_take ha)
  · intro a ha
    have hmem : a ∈ st.filter (isCandidate min_score) :=
      (List.mem_insertionSort rankLE).mp (List.mem_of_mem_take ha)
    have hc : isCandidate min_score a = true := (List.mem_filter.mp hmem).2
    unfold isCandidate at hc
    simp only [Bool.and_eq_true] at hc
    obtain ⟨⟨hnull, hwl⟩, hc3⟩ := hc
    refine ⟨Option.isNone_iff_eq_none.mp hnull, ?_, ?_⟩
    · cases hb : a.is_whitelisted
      · rfl
      · rw [hb] at hwl; exact absurd hwl (by decide)
    · cases hs : a.unfollow_score with
      | none => rw [hs] at hc3; simp at hc3
      | some s =>
        rw [hs] at hc3
        exact ⟨s, rfl, of_decide_eq_true hc3⟩
  · exact List.Pairwise.sublist (List.take_sublist _ _)
      (List.sorted_insertionSort rankLE _)
  · simp [get_unfollow_candidates]
  · refine ⟨((st.filter (isCandidate min_score)).insertionSort rankLE).drop limit,
      ?_, ?_⟩
    · rw [get_unfollow_candidates, List.take_append_drop]
      exact List.sorted_insertionSort rankLE _
    · rw [get_unfollow_candidates, List.take_append_drop]
      exact List.perm_insertionSort rankLE _
  · intro a ha b hbF hbnot
    have hbS : b ∈ (st.filter (isCandidate min_score)).insertionSort rankLE :=
      (List.mem_insertionSort rankLE).mpr hbF
    have hsplit := List.take_append_drop limit
      ((st.filter (isCandidate min_score)).insertionSort rankLE)
    have hsorted := List.sorted_insertionSort rankLE (st.filter (isCandidate min_score))
    rw [← hsplit] at hsorted hbS
    rw [List.mem_append] at hbS
    have hbdrop : b ∈ ((st.filter (isCandidate min_score)).insertionSort rankLE).drop
        limit := by
      rcases hbS with h | h
      · exact absurd h hbnot
      · exact h
    exact (List.pairwise_append.mp hsorted).2.2 a ha b hbdrop
  · intro h
    simp [get_unfollow_candidates, h, List.insertionSort]
  · intro h
    have hlen : ((st.filter (isCandidate min_score)).insertionSort rankLE).length
        ≤ limit := by
      rw [List.length_insertionSort]; exact h
    rw [get_unfollow_candidates, List.take_of_length_le hlen]
    exact List.perm_insertionSort rankLE _

/-- High-score eligible row for the C6 witness. -/
def c6RowA : AccountRow :=
  { baseRow with
    user_id := "601"
    days_inactive := some 400
    unfollow_score := some 120 }

/-- Tied-score, less inactive eligible row for the C6 witness. -/
def c6RowB : AccountRow :=
  { baseRow with
    user_id := "602"
    days_inactive := some 200
    unfollow_score := some 120 }

/-- Ineligible rows for the C6 witness: whitelisted, terminal, unscored,
below threshold. -/
def c6Others : List AccountRow :=
  [{ baseRow with user_id := "603", unfollow_score := some 200, is_whitelisted := true },
   { baseRow with user_id := "604", unfollow_score := some 200, unfollowed_date := some 10 },
   { baseRow with user_id := "605" },
   { baseRow with user_id := "606", unfollow_score := some 49 }]

/-- Store for the C6 witness. -/
def c6Store : List AccountRow := c6Others ++ [c6RowB, c6RowA]

/-- Witness for C6 at a concrete store: the two qualifying rows are all
returned when the qualifying count 2 is at most the limit 5, the empty store
yields the empty list, row 601 is one of the qualifying store rows, and in
the truncation case (limit 1 over the same two qualifying rows) the returned
row 601 ranks at least as high as the omitted row 602. -/
theorem C6_witness :
    (get_unfollow_candidates c6Store 5 50).Perm (c6Store.filter (isCandidate 50)) ∧
    get_unfollow_candidates [] 5 50 = [] ∧
    c6RowA ∈ c6Store.filter (isCandidate 50) ∧
    rankLE c6RowA c6RowB :=
  ⟨(C6_rank_contract c6Store 5 50).2.2.2.2.2.2.2 (by decide),
   (C6_rank_contract [] 5 50).2.2.2.2.2.2.1 (by decide),
   (C6_rank_contract c6Store 5 50).1 c6RowA (by decide),
   (C6_rank_contract c6Store 1 50).2.2.2.2.2.1 c6RowA (by decide) c6RowB
     (by decide) (by decide)⟩

/-- Claim C10: get_unfollow_candidates never returns a row whose
unfollow_score is NULL, for every limit and min_score (including 0 and
negative): the SQL comparison NULL >= min_score does not pass. -/
theorem C10_no_null_score_candidate (st : List AccountRow) (limit : Nat)
    (min_score : Int) :
    (get_unfollow_candidates st limit min_score).all
      (fun a => a.unfollow_score.isSome) = true := by
  rw [List.all_eq_true]
  intro a ha
  have hmem : a ∈ st.filter (isCandidate min_score) :=
    (List.mem_insertionSort rankLE).mp (List.mem_of_mem_take ha)
  have hc : isCandidate min_score a = true := (List.mem_filter.mp hmem).2
  unfold isCandidate at hc
  simp only [Bool.and_eq_true] at hc
  obtain ⟨_, hc3⟩ := hc
  cases hs : a.unfollow_score with
  | none => rw [hs] at hc3; simp at hc3
  | some s => rfl

/-
Activity Prober: check_account_activity (inactive_account_cleaner.py lines
123-202) over update_account_activity (cleaner_database.py lines 185-232).
The gateway is a function from user id to response; ids are processed
strictly in order, a 429 stops the loop, other errors skip the id.
-/

/-- One tweet as returned by the gateway, with created_at as a day number. -/
structure TweetData where
  id : String
  created_at : Int
  text : String
deriving Repr, DecidableEq

/-- Gateway response to the latest-tweet probe of one user id. -/
inductive ProbeResponse where
  | ok (tweets : List TweetData) (rate_limit_remaining : Option Int)
  | notFound (rate_limit_remaining : Option Int)
  | unauthorized
  | rateLimited
  | otherError
deriving Repr, DecidableEq

/-- The activity_data dict assembled by check_account_activity; absent keys
are read back with dict.get, hence every field is optional. -/
structure ActivityData where
  last_tweet_id : Option String := none
  last_tweet_date : Option Int := none
  last_tweet_text : Option String := none
  follower_count : Option Int := none
  tweet_count : Option Int := none
  rate_limit_remaining : Option Int := none
deriving Repr, DecidableEq

/-- One row of the append-only activity_checks table. -/
structure CheckRec where
  user_id : String
  check_date : Int
  last_tweet_date : Option Int
  days_inactive : Option Int
  follower_count : Option Int
  tweet_count : Option Int
  api_rate_limit_remaining : Option Int
deriving Repr, DecidableEq

/-- update_account_activity (cleaner_database.py lines 185-232): derives
days_inactive from last_tweet_date (None stays None), updates the matching
following_status row (activity fields, last_checked_date, check_count + 1)
and appends one activity_checks record. -/
def update_account_activity (st : List AccountRow) (checks : List CheckRec)
    (uid : String) (act : ActivityData) (now : Int) :
    List AccountRow × List CheckRec :=
  let days_inactive := act.last_tweet_date.map (fun d => now - d)
  let st' := st.map (fun r =>
    if r.user_id == uid then
      { r with
        last_tweet_id := act.last_tweet_id
        last_tweet_date := act.last_tweet_date
        last_tweet_text := act.last_tweet_text
        days_inactive := days_inactive
        last_checked_date := some now
        check_count := r.check_count + 1 }
    else r)
  let entry : CheckRec :=
    { user_id := uid
      check_date := now
      last_tweet_date := act.last_tweet_date
      days_inactive := days_inactive
      follower_count := act.follower_count
      tweet_count := act.tweet_count
      api_rate_limit_remaining := act.rate_limit_remaining }
  (st', checks ++ [entry])

/-- check_account_activity (inactive_account_cleaner.py lines 123-202):
per id, 200 with tweets updates the tweet fields (text truncated to 100
characters), 200 without tweets and 404 record last_tweet_date None, 401
counts as checked without touching the store, 429 aborts the remaining batch
returning the count so far, any other error (or exception) skips the id. -/
def check_account_activity (resp : String → ProbeResponse) (now : Int) :
    List AccountRow → List CheckRec → List String →
    List AccountRow × List CheckRec × Nat
  | st, checks, [] => (st, checks, 0)
  | st, checks, uid :: rest =>
    match resp uid with
    | ProbeResponse.ok tweets rr =>
      let act : ActivityData :=
        match tweets with
        | t :: _ =>
          { last_tweet_id := some t.id
            last_tweet_date := some t.created_at
            last_tweet_text := some (t.text.take 100)
            rate_limit_remaining := rr }
        | [] => { last_tweet_date := none, rate_limit_remaining := rr }
      let p := update_account_activity st checks uid act now
      let q := check_account_activity resp now p.1 p.2 rest
      (q.1, q.2.1, q.2.2 + 1)
    | ProbeResponse.notFound rr =>
      let act : ActivityData := { last_tweet_date := none, rate_limit_remaining := rr }
      let p := update_account_activity st checks uid act now
      let q := check_account_activity resp now p.1 p.2 rest
      (q.1, q.2.1, q.2.2 + 1)
    | ProbeResponse.unauthorized =>
      let q := check_account_activity resp now st checks rest
      (q.1, q.2.1, q.2.2 + 1)
    | ProbeResponse.rateLimited => (st, checks, 0)
    | ProbeResponse.otherError => check_account_activity resp now st checks rest

/-- The store component of update_account_activity leaves every row with a
different user id untouched, as seen through storeLookup. -/
theorem storeLookup_update_account_activity (st : List AccountRow)
    (checks : List CheckRec) (uid : String) (act : ActivityData) (now : Int)
    (t : String) (h : t ≠ uid) :
    storeLookup (update_account_activity st checks uid act now).1 t
      = storeLookup st t := by
  induction st with
  | nil => rfl
  | cons r rs ih =>
    simp only [update_account_activity, List.map_cons] at *
    by_cases hr : r.user_id == uid
    · have hrt : (r.user_id == t) = false := by
        have : r.user_id = uid := by simpa using hr
        simp [this, Ne.symm h]
      simp only [storeLookup, List.find?, hr, if_true, hrt]
      simpa [storeLookup, update_account_activity] using ih
    · simp only [storeLookup, List.find?, hr, if_false, Bool.false_eq_true]
      by_cases hrt : r.user_id == t
      · simp [hrt]
      · simp only [Bool.not_eq_true] at hrt
        simp only [hrt]
        simpa [storeLookup, update_account_activity] using ih

/-- A probe batch only ever touches the store rows of the ids it contains. -/
theorem check_account_activity_frame (resp : String → ProbeResponse) (now : Int)
    (ids : List String) :
    ∀ st checks uid, uid ∉ ids →
      storeLookup (check_account_activity resp now st checks ids).1 uid
        = storeLookup st uid := by
  induction ids with
  | nil => intro st checks uid _; rfl
  | cons x rest ih =>
    intro st checks uid hu
    have hux : uid ≠ x := fun hh => hu (hh ▸ List.mem_cons_self x rest)
    have hur : uid ∉ rest := fun hh => hu (List.mem_cons_of_mem x hh)
    cases hx : resp x with
    | ok tweets rr =>
      simp only [check_account_activity, hx]
      rw [ih _ _ _ hur, storeLookup_update_account_activity _ _ _ _ _ _ hux]
    | notFound rr =>
      simp only [check_account_activity, hx]
      rw [ih _ _ _ hur, storeLookup_update_account_activity _ _ _ _ _ _ hux]
    | unauthorized =>
      simp only [check_account_activity, hx]
      exact ih _ _ _ hur
    | rateLimited => simp only [check_account_activity, hx]
    | otherError =>
      simp only [check_account_activity, hx]
      exact ih _ _ _ hur

/-- A 429 after the prefix xs makes the whole batch behave exactly like the
batch xs alone. -/
theorem check_account_activity_abort (resp : String → ProbeResponse) (now : Int)
    (y : String) (ys : List String) (hy : resp y = ProbeResponse.rateLimited)
    (xs : List String) (hxs : ∀ x ∈ xs, resp x ≠ ProbeResponse.rateLimited) :
    ∀ st checks,
      check_account_activity resp now st checks (xs ++ y :: ys)
        = check_account_activity resp now st checks xs := by
  induction xs with
  | nil =>
    intro st checks
    simp only [List.nil_append, check_account_activity, hy]
  | cons x rest ih =>
    intro st checks
    have hxr : ∀ x' ∈ rest, resp x' ≠ ProbeResponse.rateLimited :=
      fun x' hx' => hxs x' (List.mem_cons_of_mem x hx')
    cases hx : resp x with
    | ok tweets rr =>
      simp only [List.cons_append, check_account_activity, hx, List.append_eq]
      rw [ih hxr]
    | notFound rr =>
      simp only [List.cons_append, check_account_activity, hx, List.append_eq]
      rw [ih hxr]
    | unauthorized =>
      simp only [List.cons_append, check_account_activity, hx, List.append_eq]
      rw [ih hxr]
    | rateLimited => exact absurd hx (hxs x (List.mem_cons_self x rest))
    | otherError =>
      simp only [List.cons_append, check_account_activity, hx, List.append_eq]
      exact ih hxr st checks

/-- Claim C7: when the id y at position k answers 429 and every id before it
does not, the batch result equals the result of running only the ids before
position k (so exactly their successes are stored and the returned count is
the count processed so far), and every id outside that prefix has an
untouched store row. -/
theorem C7_rate_limit_abort (resp : String → ProbeResponse) (now : Int)
    (st : List AccountRow) (checks : List CheckRec)
    (xs : List String) (y : String) (ys : List String)
    (hy : resp y = ProbeResponse.rateLimited)
    (hxs : ∀ x ∈ xs, resp x ≠ ProbeResponse.rateLimited) :
    check_account_activity resp now st checks (xs ++ y :: ys)
      = check_account_activity resp now st checks xs ∧
    ∀ uid, uid ∉ xs →
      storeLookup (check_account_activity resp now st checks (xs ++ y :: ys)).1 uid
        = storeLookup st uid := by
  have habort := check_account_activity_abort resp now y ys hy xs hxs st checks
  refine ⟨habort, ?_⟩
  intro uid hu
  rw [habort]
  exact check_account_activity_frame resp now xs st checks uid hu

/-- Gateway behaviour for the C7 witness: u5 is rate limited, u9 errors,
every other id answers with one tweet from day 900. -/
def c7Resp (uid : String) : ProbeResponse :=
  if uid == "u5" then ProbeResponse.rateLimited
  else if uid == "u9" then ProbeResponse.otherError
  else ProbeResponse.ok [{ id := "t1", created_at := 900, text := "hello" }] (some 39000)

/-- Ten-account store for the C7 witness. -/
def c7Store : List AccountRow :=
  (List.range 10).map (fun i => { baseRow with user_id := "u" ++ toString (i + 1) })

/-- The ten-id batch of the spec example for C7. -/
def c7Ids : List String :=
  ["u1", "u2", "u3", "u4", "u5", "u6", "u7", "u8", "u9", "u10"]

/-- Witness for C7 at the spec example: a batch of 10 with a 429 at item 5
behaves like the batch of items 1-4, reports 4 processed, and leaves the
item-7 row untouched. -/
theorem C7_witness :
    check_account_activity c7Resp 1000 c7Store [] c7Ids
      = check_account_activity c7Resp 1000 c7Store [] ["u1", "u2", "u3", "u4"] ∧
    (check_account_activity c7Resp 1000 c7Store [] c7Ids).2.2 = 4 ∧
    storeLookup (check_account_activity c7Resp 1000 c7Store [] c7Ids).1 "u7"
      = storeLookup c7Store "u7" := by
  have h := C7_rate_limit_abort c7Resp 1000 c7Store [] ["u1", "u2", "u3", "u4"]
    "u5" ["u6", "u7", "u8", "u9", "u10"] rfl (by decide)
  refine ⟨h.1, ?_, h.2 "u7" (by decide)⟩
  rw [show c7Ids = ["u1", "u2", "u3", "u4"] ++ "u5" :: ["u6", "u7", "u8", "u9", "u10"] from rfl]
  rw [h.1]
  decide

/-
Unfollow Executor: execute_unfollows (inactive_account_cleaner.py lines
258-321) over log_unfollow (cleaner_database.py lines 357-397).  The result
carries the store, the unfollow_log table, the two counters returned by the
Python function, and the list of user ids for which a gateway DELETE call
was issued (in call order).
-/

/-- Gateway response to one unfollow (DELETE) call; otherError also covers a
raised exception, which the source counts the same way. -/
inductive UnfollowResponse where
  | success
  | notFound
  | rateLimited
  | otherError
deriving Repr, DecidableEq

/-- One row of the append-only unfollow_log table. -/
structure UnfollowLogEntry where
  user_id : String
  username : Option String
  display_name : Option String
  unfollowed_date : Int
  days_inactive : Option Int
  follower_count : Option Int
  last_tweet_date : Option Int
  unfollow_score : Option Int
  reason : String
  batch_id : String
  can_rollback : Bool
deriving Repr, DecidableEq

/-- log_unfollow (cleaner_database.py lines 357-397): inserts one unfollow_log
row and sets unfollowed_date and unfollow_reason on the following_status row
of the same user id. -/
def log_unfollow (st : List AccountRow) (log : List UnfollowLogEntry)
    (a : AccountRow) (reason : String) (batch_id : String) (now : Int) :
    List AccountRow × List UnfollowLogEntry :=
  let entry : UnfollowLogEntry :=
    { user_id := a.user_id
      username := a.username
      display_name := a.display_name
      unfollowed_date := now
      days_inactive := a.days_inactive
      follower_count := a.follower_count
      last_tweet_date := a.last_tweet_date
      unfollow_score := a.unfollow_score
      reason := reason
      batch_id := batch_id
      can_rollback := true }
  let st' := st.map (fun r =>
    if r.user_id == a.user_id then
      { r with unfollowed_date := some now, unfollow_reason := some reason }
    else r)
  (st', log ++ [entry])

/-- Result of one execute_unfollows run. -/
structure ExecResult where
  store : List AccountRow
  log : List UnfollowLogEntry
  success_count : Nat
  error_count : Nat
  calls : List String
deriving Repr, DecidableEq

/-- execute_unfollows (inactive_account_cleaner.py lines 258-321): dry_run
counts every candidate as a simulated success without any gateway call or
database write; live mode walks the candidates in order, logging and marking
terminal on 200, counting 404 as a success with no database write, breaking
out of the loop on 429, and counting anything else as an error. -/
def execute_unfollows (dry_run : Bool) (resp : String → UnfollowResponse)
    (now : Int) (batch_id : String) :
    List AccountRow → List UnfollowLogEntry → List AccountRow → ExecResult
  | st, log, [] => { store := st, log := log, success_count := 0, error_count := 0, calls := [] }
  | st, log, a :: rest =>
    if dry_run then
      let r := execute_unfollows dry_run resp now batch_id st log rest
      { r with success_count := r.success_count + 1 }
    else
      match resp a.user_id with
      | UnfollowResponse.success =>
        let reason := "Inactive for " ++ pyStrOptInt a.days_inactive
          ++ " days (score: " ++ pyStrOptInt a.unfollow_score ++ ")"
        let p := log_unfollow st log a reason batch_id now
        let r := execute_unfollows dry_run resp now batch_id p.1 p.2 rest
        { r with success_count := r.success_count + 1, calls := a.user_id :: r.calls }
      | UnfollowResponse.notFound =>
        let r := execute_unfollows dry_run resp now batch_id st log rest
        { r with success_count := r.success_count + 1, calls := a.user_id :: r.calls }
      | UnfollowResponse.rateLimited =>
        { store := st, log := log, success_count := 0, error_count := 0,
          calls := [a.user_id] }
      | UnfollowResponse.otherError =>
        let r := execute_unfollows dry_run resp now batch_id st log rest
        { r with error_count := r.error_count + 1, calls := a.user_id :: r.calls }

/-- Claim C8: a dry run over any candidate list makes no gateway call, leaves
the store (hence every unfollowed_date) and the audit log untouched, reports
success_count = n and error_count = 0. -/
theorem C8_dry_run_pure (resp : String → UnfollowResponse) (now : Int)
    (batch_id : String) (st : List AccountRow) (log : List UnfollowLogEntry)
    (accounts : List AccountRow) :
    execute_unfollows true resp now batch_id st log accounts
      = { store := st, log := log, success_count := accounts.length,
          error_count := 0, calls := [] } := by
  induction accounts with
  | nil => rfl
  | cons a rest ih =>
    simp only [execute_unfollows, if_true, ih, List.length_cons]

/-- Candidate row used against claim C2: eligible, not yet unfollowed. -/
def c2Row : AccountRow :=
  { baseRow with
    user_id := "2001"
    username := some "ghost"
    days_inactive := some 400
    unfollow_score := some 120 }

/-- Gateway for the C2 counterexample: every unfollow answers 404. -/
def c2Resp : String → UnfollowResponse := fun _ => UnfollowResponse.notFound

/-- Counterexample to claim C2 as stated: in a live run where the only
candidate answers 404, the run does count a success and does write no log
row, but the stored account keeps unfollowed_date = NULL — the source never
touches the database in the 404 branch, so the account is NOT marked
terminal as the claim demands. -/
theorem C2_counterexample :
    (execute_unfollows false c2Resp 500 "batch1" [c2Row] [] [c2Row]).success_count = 1 ∧
    (execute_unfollows false c2Resp 500 "batch1" [c2Row] [] [c2Row]).log = [] ∧
    (execute_unfollows false c2Resp 500 "batch1" [c2Row] [] [c2Row]).store.map
        (fun r => r.unfollowed_date) = [none] := by
  decide

/-- Claim C2 amended: in a live run, a candidate whose unfollow call returns
404 contributes one success and one gateway call and nothing else: the store
and the audit log after the run equal those of the run on the remaining
candidates, so the 404 candidate's Account is left unmodified (in particular
its unfollowed_date is not set) and no UnfollowLogEntry is written for it. -/
theorem C2_404_success_without_write (resp : String → UnfollowResponse)
    (now : Int) (batch_id : String) (st : List AccountRow)
    (log : List UnfollowLogEntry) (a : AccountRow) (rest : List AccountRow)
    (h : resp a.user_id = UnfollowResponse.notFound) :
    (execute_unfollows false resp now batch_id st log (a :: rest)).store
      = (execute_unfollows false resp now batch_id st log rest).store ∧
    (execute_unfollows false resp now batch_id st log (a :: rest)).log
      = (execute_unfollows false resp now batch_id st log rest).log ∧
    (execute_unfollows false resp now batch_id st log (a :: rest)).success_count
      = (execute_unfollows false resp now batch_id st log rest).success_count + 1 ∧
    (execute_unfollows false resp now batch_id st log (a :: rest)).error_count
      = (execute_unfollows false resp now batch_id st log rest).error_count ∧
    (execute_unfollows false resp now batch_id st log (a :: rest)).calls
      = a.user_id :: (execute_unfollows false resp now batch_id st log rest).calls := by
  simp only [execute_unfollows, if_false, h, Bool.false_eq_true]
  exact ⟨trivial, trivial, trivial, trivial, trivial⟩

/-- Witness for the amended C2 at the concrete 404 run: success goes up by
one while store and log stay those of the empty run. -/
theorem C2_witness :
    (execute_unfollows false c2Resp 500 "batch1" [c2Row] [] [c2Row]).store
        = (execute_unfollows false c2Resp 500 "batch1" [c2Row] [] []).store ∧
    (execute_unfollows false c2Resp 500 "batch1" [c2Row] [] [c2Row]).success_count
        = (execute_unfollows false c2Resp 500 "batch1" [c2Row] [] []).success_count + 1 :=
  ⟨(C2_404_success_without_write c2Resp 500 "batch1" [c2Row] [] c2Row [] rfl).1,
   (C2_404_success_without_write c2Resp 500 "batch1" [c2Row] [] c2Row [] rfl).2.2.1⟩

/-
Whitelist Guard: add_to_whitelist (cleaner_database.py lines 331-355) and
remove_from_whitelist (whitelist_manager.py lines 124-151).
-/

/-- One row of the whitelist table. -/
structure WhitelistEntry where
  user_id : String
  username : Option String
  display_name : Option String
  reason : Option String
  added_date : Option Int
  added_by : Option String
  is_permanent : Bool
deriving Repr, DecidableEq

/-- add_to_whitelist (cleaner_database.py lines 331-355): INSERT OR REPLACE of
the whitelist row over the four listed columns (display_name and added_by
revert to NULL, is_permanent to its default 1), then UPDATE following_status
SET is_whitelisted = 1, unfollow_score = -1000 for that user id. -/
def add_to_whitelist (wl : List WhitelistEntry) (st : List AccountRow)
    (user_id username reason : String) (now : Int) :
    List WhitelistEntry × List AccountRow :=
  let entry : WhitelistEntry :=
    { user_id := user_id
      username := some username
      display_name := none
      reason := some reason
      added_date := some now
      added_by := none
      is_permanent := true }
  let wl' := if wl.any (fun e => e.user_id == user_id)
             then wl.map (fun e => if e.user_id == user_id then entry else e)
             else wl ++ [entry]
  let st' := st.map (fun r =>
    if r.user_id == user_id
    then { r with is_whitelisted := true, unfollow_score := some (-1000) }
    else r)
  (wl', st')

/-- remove_from_whitelist (whitelist_manager.py lines 124-151): strips a
leading at-sign, then for a numeric identifier deletes the whitelist row by
user_id and sets is_whitelisted = 0 on the matching following_status row
(leaving unfollow_score untouched); otherwise the same by username.  The
returned Bool models the cursor.rowcount > 0 test, whose rowcount comes from
the last statement executed, the UPDATE on following_status; exceptions are
caught, so the call never raises. -/
def remove_from_whitelist (wl : List WhitelistEntry) (st : List AccountRow)
    (identifier : String) : List WhitelistEntry × List AccountRow × Bool :=
  let ident := if charsStartWith "@".data identifier.data
               then identifier.drop 1 else identifier
  if pyIsDigit ident then
    (wl.filter (fun e => !(e.user_id == ident)),
     st.map (fun r =>
       if r.user_id == ident then { r with is_whitelisted := false } else r),
     decide (0 < st.countP (fun r => r.user_id == ident)))
  else
    (wl.filter (fun e => !(e.username == some ident)),
     st.map (fun r =>
       if r.username == some ident then { r with is_whitelisted := false } else r),
     decide (0 < st.countP (fun r => r.username == some ident)))

/-- A string of digits does not start with an at-sign. -/
theorem pyIsDigit_no_at (s : String) (h : pyIsDigit s = true) :
    charsStartWith "@".data s.data = false := by
  unfold pyIsDigit at h
  simp only [Bool.and_eq_true, Bool.not_eq_true'] at h
  obtain ⟨hne, hall⟩ := h
  cases hd : s.data with
  | nil => rw [hd] at hne; simp at hne
  | cons c cs =>
    rw [hd] at hall
    rw [List.all_cons, Bool.and_eq_true] at hall
    have hc : c.isDigit = true := hall.1
    have hca : ('@' == c) = false := by
      cases h' : ('@' == c)
      · rfl
      · have : '@' = c := beq_iff_eq.mp h'
        rw [← this] at hc
        exact absurd hc (by decide)
    show charsStartWith ['@'] (c :: cs) = false
    simp [charsStartWith, hca]

/-- Followed account with a real score before whitelisting, for claim C9. -/
def c9Row : AccountRow :=
  { baseRow with
    user_id := "12345"
    username := some "alice"
    unfollow_score := some 60 }

/-- Store used in the C9 counterexample. -/
def c9Store : List AccountRow := [c9Row]

/-- The whitelist/store pair after the C9 add. -/
def c9AfterAdd : List WhitelistEntry × List AccountRow :=
  add_to_whitelist [] c9Store "12345" "alice" "Manual addition" 100

/-- The result of the C9 remove on top of the add. -/
def c9AfterRemove : List WhitelistEntry × List AccountRow × Bool :=
  remove_from_whitelist c9AfterAdd.1 c9AfterAdd.2 "12345"

/-- Counterexample to claim C9 as stated: adding account 12345 to the
whitelist writes the sentinel score -1000; removing it deletes the
WhitelistEntry and clears is_whitelisted, but the stored unfollow_score is
still the sentinel -1000 (it is not restored away from SENTINEL_NEVER). -/
theorem C9_counterexample :
    c9AfterAdd.2.map (fun r => r.unfollow_score) = [some (-1000)] ∧
    c9AfterRemove.1 = [] ∧
    c9AfterRemove.2.1.map (fun r => (r.is_whitelisted, r.unfollow_score))
      = [(false, some (-1000))] ∧
    c9AfterRemove.2.2 = true := by decide

/-- Claim C9 amended: for a numeric identifier, remove-after-add deletes the
WhitelistEntry and sets is_whitelisted back to false, but leaves
unfollow_score at the sentinel -1000 until the next rescoring; the Boolean
result reports whether any following_status row matched (false — a no-op
report, never an exception — when the identifier is unknown to the store). -/
theorem C9_remove_clears_flag_keeps_sentinel
    (wl : List WhitelistEntry) (st : List AccountRow)
    (uid uname reason : String) (now : Int)
    (wl1 : List WhitelistEntry) (st1 : List AccountRow)
    (wl2 : List WhitelistEntry) (st2 : List AccountRow) (flag : Bool)
    (hdigit : pyIsDigit uid = true)
    (h1 : add_to_whitelist wl st uid uname reason now = (wl1, st1))
    (h2 : remove_from_whitelist wl1 st1 uid = (wl2, st2, flag)) :
    (∀ e ∈ wl2, e.user_id ≠ uid) ∧
    (∀ r ∈ st2, r.user_id = uid →
      r.is_whitelisted = false ∧ r.unfollow_score = some (-1000)) ∧
    (flag = true ↔ ∃ r ∈ st, r.user_id = uid) := by
  have hat := pyIsDigit_no_at uid hdigit
  rw [remove_from_whitelist] at h2
  rw [hat] at h2
  simp only [if_false, Bool.false_eq_true, hdigit, if_true] at h2
  have hwl2 := congrArg Prod.fst h2
  have hst2 := congrArg (fun p : List WhitelistEntry × List AccountRow × Bool => p.2.1) h2
  have hflag := congrArg (fun p : List WhitelistEntry × List AccountRow × Bool => p.2.2) h2
  simp only at hwl2 hst2 hflag
  rw [add_to_whitelist] at h1
  have hst1 : st1 = st.map (fun r =>
      if r.user_id == uid
      then { r with is_whitelisted := true, unfollow_score := some (-1000) }
      else r) := (congrArg Prod.snd h1).symm
  refine ⟨?_, ?_, ?_⟩
  · intro e he
    rw [← hwl2] at he
    have := (List.mem_filter.mp he).2
    simp only [Bool.not_eq_true', beq_eq_false_iff_ne, ne_eq] at this
    exact this
  · intro r hr hruid
    rw [← hst2, hst1] at hr
    rw [List.mem_map] at hr
    obtain ⟨r0, hr0mem, hr0⟩ := hr
    by_cases hc0 : r0.user_id == uid
    · rw [if_pos hc0] at hr0
      rw [List.mem_map] at hr0mem
      obtain ⟨r1, _, hr1⟩ := hr0mem
      by_cases hc1 : r1.user_id == uid
      · rw [if_pos hc1] at hr1
        rw [← hr0, ← hr1]
        exact ⟨rfl, rfl⟩
      · rw [if_neg hc1] at hr1
        rw [← hr1] at hc0
        exact absurd hc0 hc1
    · rw [if_neg hc0] at hr0
      rw [← hr0] at hruid
      exact absurd (beq_iff_eq.mpr hruid) hc0
  · rw [← hflag, hst1, List.countP_map]
    have hcount : st.countP ((fun r => r.user_id == uid) ∘ fun r =>
        if r.user_id == uid
        then { r with is_whitelisted := true, unfollow_score := some (-1000) }
        else r) = st.countP (fun r => r.user_id == uid) := by
      apply List.countP_congr
      intro r _
      by_cases hc : r.user_id == uid
      · simp [Function.comp, hc]
      · simp [Function.comp, hc]
    rw [hcount]
    rw [decide_eq_true_iff]
    rw [List.countP_pos_iff]
    constructor
    · rintro ⟨r, hmem, hp⟩
      exact ⟨r, hmem, beq_iff_eq.mp hp⟩
    · rintro ⟨r, hmem, hp⟩
      exact ⟨r, hmem, beq_iff_eq.mpr hp⟩

/-- The account row as stored after the C9 add-then-remove round trip. -/
def c9RowAfter : AccountRow :=
  { baseRow with
    user_id := "12345"
    username := some "alice"
    unfollow_score := some (-1000)
    is_whitelisted := false }

/-- Witness for the amended C9 at the concrete round trip: the remaining row
has the whitelist flag cleared and the sentinel score kept, and the Boolean
result is true because a following_status row matched. -/
theorem C9_witness :
    (c9RowAfter.is_whitelisted = false ∧ c9RowAfter.unfollow_score = some (-1000)) ∧
    c9AfterRemove.2.2 = true := by
  have h := C9_remove_clears_flag_keeps_sentinel [] c9Store "12345" "alice"
    "Manual addition" 100 c9AfterAdd.1 c9AfterAdd.2 c9AfterRemove.1
    c9AfterRemove.2.1 c9AfterRemove.2.2 (by decide) rfl rfl
  refine ⟨h.2.1 c9RowAfter (by decide) rfl, ?_⟩
  exact h.2.2.mpr ⟨c9Row, by decide, rfl⟩
